import Mathlib

/-!
Shallow embedding of `sleap/nn/model.py` and `sleap/gui/importvideos.py` from the
`rlinus/sleap` repository, together with theorems checking the specification's
claims about backbone/head composition and the video-import dialog.

Machinery external to the two source files (TensorFlow layers, the head and
architecture classes, h5py, Qt widgets) is modelled by explicit data types; every
place where such a model follows the specification rather than in-repository code
is marked `Modelled from the spec:` in its doc comment.
-/

/-- Python exceptions that the embedded code can raise.  An `Except PyError`
result models a Python function that either returns or raises. -/
inductive PyError where
  | valueError (msg : String)
  | attributeError (attrName : String)
  | keyError (key : String)
  | indexError
  | assertionError
  | typeError
  | exception (msg : String)
  deriving DecidableEq, Repr

/-- A point in the TensorFlow compute graph.  `input` is the layer created by
`tf.keras.layers.Input(input_shape, name="input")`; `conv2d` is a
`tf.keras.layers.Conv2D(filters, kernel_size, strides, padding, name)` applied to
a source tensor; `raw` stands for tensors produced inside a backbone, which is
external to `model.py` and therefore opaque here. -/
inductive Tensor where
  | input (shape : Nat × Nat × Nat) (layerName : String)
  | raw (tag : String)
  | conv2d (filters kernelSize strides : Nat) (padding : String) (layerName : String)
      (src : Tensor)
  deriving DecidableEq, Repr

/-- The Keras layer name attached to a tensor. -/
def Tensor.outName : Tensor → String
  | .input _ n => n
  | .raw tag => tag
  | .conv2d _ _ _ _ n _ => n

/-- `sleap.nn.architectures.IntermediateFeature`: a backbone activation tagged
with its stride (spec section 3: tensor plus positive integer stride). -/
structure IntermediateFeature where
  tensor : Tensor
  stride : Nat
  deriving DecidableEq, Repr

/-- The main output of `backbone.make_backbone`: either a single `tf.Tensor` or a
list of tensors (the `isinstance(x_main, tf.Tensor)` check in `make_model`). -/
inductive MainFeats where
  | tensor (t : Tensor)
  | tensors (ts : List Tensor)
  deriving DecidableEq, Repr

/-- The intermediate output of `backbone.make_backbone`: either a flat list of
`IntermediateFeature`s or a list of lists (the `isinstance(x_mid[0],
IntermediateFeature)` check in `make_model`). -/
inductive MidFeats where
  | flat (fs : List IntermediateFeature)
  | nested (fss : List (List IntermediateFeature))
  deriving DecidableEq, Repr

/-- Modelled from the spec: backbone classes live in `sleap.nn.architectures`,
which is not among the sources.  Per the spec a backbone exposes an overall
output stride and, given the input tensor, produces a main output plus
intermediate tagged features. -/
structure Backbone where
  output_stride : Nat
  make_backbone : Tensor → MainFeats × MidFeats

/-- Modelled from the spec: the head classes live in `sleap.nn.heads`, which is
not among the sources.  The five variants are the ones `model.py` imports; per
the spec a head exposes its required output stride and its channel count, and
the confmap heads carry part names while the PAFs head carries edge names. -/
inductive Head where
  | centroidConfmaps (anchor_part : Option String) (output_stride : Nat)
  | singleInstanceConfmaps (part_names : List String) (output_stride : Nat)
  | centeredInstanceConfmaps (part_names : List String) (output_stride : Nat)
  | multiInstanceConfmaps (part_names : List String) (output_stride : Nat)
  | partAffinityFields (edges : List (String × String)) (output_stride : Nat)
  deriving DecidableEq, Repr

/-- `type(output).__name__` for a head instance. -/
def Head.className : Head → String
  | .centroidConfmaps _ _ => "CentroidConfmapsHead"
  | .singleInstanceConfmaps _ _ => "SingleInstanceConfmapsHead"
  | .centeredInstanceConfmaps _ _ => "CenteredInstanceConfmapsHead"
  | .multiInstanceConfmaps _ _ => "MultiInstanceConfmapsHead"
  | .partAffinityFields _ _ => "PartAffinityFieldsHead"

/-- The head's required output stride (`output.output_stride`). -/
def Head.output_stride : Head → Nat
  | .centroidConfmaps _ s => s
  | .singleInstanceConfmaps _ s => s
  | .centeredInstanceConfmaps _ s => s
  | .multiInstanceConfmaps _ s => s
  | .partAffinityFields _ s => s

/-- Modelled from the spec: the head's channel count (`output.channels`); one
channel per part for confmap heads, one for the centroid head, two per edge for
part affinity fields. -/
def Head.channels : Head → Nat
  | .centroidConfmaps _ _ => 1
  | .singleInstanceConfmaps pn _ => pn.length
  | .centeredInstanceConfmaps pn _ => pn.length
  | .multiInstanceConfmaps pn _ => pn.length
  | .partAffinityFields es _ => 2 * es.length

/-- `sleap.nn.model.Model`: one backbone plus an ordered list of heads. -/
structure Model where
  backbone : Backbone
  heads : List Head

/-- The `tf.keras.Model(inputs=x_in, outputs=x_outs)` value built at the end of
`make_model`: the single input tensor and the per-head lists of output tensors. -/
structure KerasModel where
  input : Tensor
  outputs : List (List Tensor)
  deriving DecidableEq, Repr

/-- Lines 154-155 of `model.py`: wrap a bare main-output tensor into a list. -/
def normalizeMain : MainFeats → List Tensor
  | .tensor t => [t]
  | .tensors ts => ts

/-- Lines 156-157 of `model.py`: wrap a flat intermediate-feature list into a
list of lists.  Indexing `x_mid[0]` on an empty list raises `IndexError`. -/
def normalizeMid : MidFeats → Except PyError (List (List IntermediateFeature))
  | .flat [] => .error PyError.indexError
  | .flat fs => .ok [fs]
  | .nested [] => .error PyError.indexError
  | .nested fss => .ok fss

/-- Python's `zip(*ls)` on a list of lists: truncates to the shortest member and
groups the elements position by position. -/
def pyZip (ls : List (List α)) : List (List α) :=
  match ls with
  | [] => []
  | l0 :: rest =>
    let n := rest.foldl (fun acc l => Nat.min acc l.length) l0.length
    (List.range n).map (fun i => ls.filterMap (fun l => l[i]?))

/-- The Keras layer name `f"{type(output).__name__}_{i}"` used for head output
layers. -/
def headLayerName (h : Head) (i : Nat) : String :=
  h.className ++ "_" ++ toString i

/-- The 1x1 projection `tf.keras.layers.Conv2D(filters, kernel_size=1,
strides=1, padding="same", name=layerName)` applied to `x`. -/
def conv1x1 (filters : Nat) (layerName : String) (x : Tensor) : Tensor :=
  Tensor.conv2d filters 1 1 "same" layerName x

/-- Lines 166-175 of `model.py`: project every tensor of the main-output list
through a 1x1 convolution with the head's channel count. -/
def mainHeadOutput (h : Head) (x_main : List Tensor) : List Tensor :=
  x_main.enum.map (fun p => conv1x1 h.channels (headLayerName h p.1) p.2)

/-- Lines 179-193 of `model.py`: scan the groups `zip(*x_mid)` in order; assert
that all members of a scanned group share one stride; on the first group whose
stride matches the head's required stride, project every member tensor and stop
(the `break`).  If no group matches, the empty list is returned and the caller
raises. -/
def midHeadOutput (h : Head) : List (List IntermediateFeature) → Except PyError (List Tensor)
  | [] => .ok []
  | [] :: _ => .error PyError.indexError
  | (f0 :: fr) :: rest =>
    if ∀ f ∈ f0 :: fr, f.stride = f0.stride then
      if f0.stride = h.output_stride then
        .ok ((f0 :: fr).enum.map (fun p => conv1x1 h.channels (headLayerName h p.1) p.2.tensor))
      else midHeadOutput h rest
    else .error PyError.assertionError

/-- Lines 195-199 of `model.py`: raise if `x_head` stayed empty.  The raise
statement is `raise ValueError(f"Could not find a feature activation for output
at stride {output.stride}.")`; evaluating the f-string reads `output.stride`, an
attribute the head classes do not define (they define `output_stride`), so
Python raises `AttributeError` before the `ValueError` is ever constructed. -/
def checkHeadNonEmpty (x_head : List Tensor) : Except PyError (List Tensor) :=
  if x_head.length = 0 then
    .error (PyError.attributeError "stride")
  else
    .ok x_head

/-- Lines 162-199 of `model.py`, continued: one iteration of the head loop. -/
def buildHeadOutput (backboneStride : Nat) (x_main : List Tensor)
    (groups : List (List IntermediateFeature)) (h : Head) : Except PyError (List Tensor) :=
  if h.output_stride = backboneStride then
    checkHeadNonEmpty (mainHeadOutput h x_main)
  else
    match midHeadOutput h groups with
    | .error e => .error e
    | .ok x_head => checkHeadNonEmpty x_head

/-- The `for output in self.heads` loop of `make_model`, accumulating `x_outs`. -/
def buildOutputs (backboneStride : Nat) (x_main : List Tensor)
    (groups : List (List IntermediateFeature)) : List Head → Except PyError (List (List Tensor))
  | [] => .ok []
  | h :: rest =>
    match buildHeadOutput backboneStride x_main groups h with
    | .error e => .error e
    | .ok x_head =>
      match buildOutputs backboneStride x_main groups rest with
      | .error e => .error e
      | .ok outs => .ok (x_head :: outs)

/-- The normalized main-output list produced for a given input shape
(lines 148-155 of `model.py`). -/
def Model.mainOutputs (model : Model) (input_shape : Nat × Nat × Nat) : List Tensor :=
  normalizeMain (model.backbone.make_backbone (Tensor.input input_shape "input")).1

/-- The intermediate feature groups `zip(*x_mid)` scanned by the heads
(lines 156-157 and 179 of `model.py`). -/
def Model.midGroups (model : Model) (input_shape : Nat × Nat × Nat) :
    Except PyError (List (List IntermediateFeature)) :=
  match normalizeMid (model.backbone.make_backbone (Tensor.input input_shape "input")).2 with
  | .error e => .error e
  | .ok x_mid => .ok (pyZip x_mid)

/-- `Model.make_model` (lines 137-205 of `model.py`): create the input layer,
run the backbone, normalize its outputs, build the per-head output layers and
assemble the `tf.keras.Model`. -/
def Model.make_model (model : Model) (input_shape : Nat × Nat × Nat) :
    Except PyError KerasModel :=
  match model.midGroups input_shape with
  | .error e => .error e
  | .ok groups =>
    match buildOutputs model.backbone.output_stride (model.mainOutputs input_shape)
        groups model.heads with
    | .error e => .error e
    | .ok x_outs => .ok { input := Tensor.input input_shape "input", outputs := x_outs }

/-- The layer names of all output tensors of a built graph. -/
def outputNames (km : KerasModel) : List String :=
  km.outputs.flatten.map Tensor.outName

/-! ### Configuration and `Model.from_config` -/

/-- `SingleInstanceConfmapsHeadConfig` from `sleap.nn.config` (not among the
sources).  Modelled from the spec: the head configuration optionally carries the
anatomical part names and fixes the head's required output stride. -/
structure SingleInstanceConfmapsHeadConfig where
  part_names : Option (List String)
  output_stride : Nat
  deriving DecidableEq, Repr

/-- `CentroidsHeadConfig` from `sleap.nn.config` (not among the sources).
Modelled from the spec: the centroid head needs no part or edge names. -/
structure CentroidsHeadConfig where
  anchor_part : Option String
  output_stride : Nat
  deriving DecidableEq, Repr

/-- `CenteredInstanceConfmapsHeadConfig` from `sleap.nn.config` (not among the
sources).  Modelled from the spec, like the single-instance variant. -/
structure CenteredInstanceConfmapsHeadConfig where
  part_names : Option (List String)
  output_stride : Nat
  deriving DecidableEq, Repr

/-- The `multi_instance` sub-configuration of `MultiInstanceConfig` (not among
the sources).  Modelled from the spec. -/
structure MultiInstanceConfmapsHeadConfig where
  part_names : Option (List String)
  output_stride : Nat
  deriving DecidableEq, Repr

/-- The `pafs` sub-configuration of `MultiInstanceConfig` (not among the
sources).  Modelled from the spec: optional skeletal edge names. -/
structure PartAffinityFieldsHeadConfig where
  edges : Option (List (String × String))
  output_stride : Nat
  deriving DecidableEq, Repr

/-- `MultiInstanceConfig` from `sleap.nn.config` (not among the sources):
a confmaps sub-configuration plus a PAFs sub-configuration. -/
structure MultiInstanceConfig where
  multi_instance : MultiInstanceConfmapsHeadConfig
  pafs : PartAffinityFieldsHeadConfig
  deriving DecidableEq, Repr

/-- The `heads` oneof of `ModelConfig` (spec section 4.2): exactly one of the
four head variants is selected; `which_oneof` returns the selected branch. -/
inductive HeadsConfigOneof where
  | singleInstance (c : SingleInstanceConfmapsHeadConfig)
  | centroid (c : CentroidsHeadConfig)
  | centeredInstance (c : CenteredInstanceConfmapsHeadConfig)
  | multiInstance (c : MultiInstanceConfig)
  deriving DecidableEq, Repr

/-- The `backbone` oneof of `ModelConfig`.  Modelled from the spec: the
architectures module is not among the sources, so each selected branch carries
the backbone instance that `BACKBONE_CONFIG_TO_CLS[type(cfg)].from_config(cfg)`
resolves it to. -/
inductive BackboneConfig where
  | leap (b : Backbone)
  | unet (b : Backbone)
  | hourglass (b : Backbone)
  | resnet (b : Backbone)

/-- The static lookup `BACKBONE_CONFIG_TO_CLS` followed by
`backbone_cls.from_config(backbone_config)` (line 131 of `model.py`). -/
def BackboneConfig.resolve : BackboneConfig → Backbone
  | .leap b => b
  | .unet b => b
  | .hourglass b => b
  | .resnet b => b

/-- `sleap.nn.config.ModelConfig`, restricted to the two fields `from_config`
reads: the backbone oneof and the heads oneof. -/
structure ModelConfig where
  backbone : BackboneConfig
  heads : HeadsConfigOneof

/-- `sleap.Skeleton` as consumed by `from_config` (spec section 6): node names
and edge names. -/
structure Skeleton where
  node_names : List String
  edge_names : List (String × String)
  deriving DecidableEq, Repr

/-- The value bound to the local `heads` in `from_config`: a single head
instance or a list of head instances. -/
inductive HeadsArg where
  | one (h : Head)
  | many (hs : List Head)
  deriving DecidableEq, Repr

/-- `sleap.nn.data.utils.ensure_list` (not among the sources), the attrs
converter on `Model.heads`.  Modelled from the spec: a scalar head is coerced to
a one-element list. -/
def ensure_list : HeadsArg → List Head
  | .one h => [h]
  | .many hs => hs

/-- The error message of the three `raise ValueError` statements in
`from_config`. -/
def skeletonRequiredMsg : String :=
  "Skeleton must be provided when the head configuration is incomplete."

/-- Lines 77-84 (and their twins): resolve an optional part-name (or edge-name)
list from the configuration, falling back to a skeleton-supplied value, and
raising `ValueError` when neither is available. -/
def resolveNames (configured : Option α) (fromSkeleton : Option Skeleton → Option α)
    (skeleton : Option Skeleton) : Except PyError α :=
  match configured with
  | some v => .ok v
  | none =>
    match fromSkeleton skeleton with
    | some v => .ok v
    | none => .error (PyError.valueError skeletonRequiredMsg)

/-- `Model.from_config` (lines 66-131 of `model.py`): select the backbone class
via the static table, build the head instances for the selected head variant —
falling back to skeleton-provided part or edge names and raising `ValueError`
when the configuration is incomplete and no skeleton is given — and construct
the `Model` (heads coerced to a list by the `ensure_list` converter).  No
compute graph is built here; graphs only arise from `make_model`. -/
def Model.from_config (config : ModelConfig) (skeleton : Option Skeleton) :
    Except PyError Model :=
  let headsArg : Except PyError HeadsArg :=
    match config.heads with
    | .singleInstance hc =>
      match resolveNames hc.part_names (fun sk => sk.map Skeleton.node_names) skeleton with
      | .error e => .error e
      | .ok part_names => .ok (HeadsArg.one (Head.singleInstanceConfmaps part_names hc.output_stride))
    | .centroid hc => .ok (HeadsArg.one (Head.centroidConfmaps hc.anchor_part hc.output_stride))
    | .centeredInstance hc =>
      match resolveNames hc.part_names (fun sk => sk.map Skeleton.node_names) skeleton with
      | .error e => .error e
      | .ok part_names => .ok (HeadsArg.one (Head.centeredInstanceConfmaps part_names hc.output_stride))
    | .multiInstance hc =>
      match resolveNames hc.multi_instance.part_names (fun sk => sk.map Skeleton.node_names) skeleton with
      | .error e => .error e
      | .ok part_names =>
        match resolveNames hc.pafs.edges (fun sk => sk.map Skeleton.edge_names) skeleton with
        | .error e => .error e
        | .ok edges =>
          .ok (HeadsArg.many
            [Head.multiInstanceConfmaps part_names hc.multi_instance.output_stride,
             Head.partAffinityFields edges hc.pafs.output_stride])
  match headsArg with
  | .error e => .error e
  | .ok hs => .ok { backbone := config.backbone.resolve, heads := ensure_list hs }

/-! ### `sleap/gui/importvideos.py` -/

/-- A Python value stored in a parameter dictionary: radio and menu selections
are strings, checkbox states are booleans. -/
inductive PVal where
  | str (s : String)
  | boolv (b : Bool)
  deriving DecidableEq, Repr

/-- The state of a Qt control stored in `widget_elements`: a `QButtonGroup`
with its options and currently checked button text, a `QCheckBox` with its
label and checked state, or a `QComboBox` with its items and current text. -/
inductive QtWidget where
  | radioGroup (options : List String) (checked : String)
  | checkBox (label : String) (checked : Bool)
  | comboBox (items : List String) (currentText : String)
  deriving DecidableEq, Repr

/-- Python dict insertion `d[k] = v`: overwrite in place when the key exists,
append otherwise (dicts preserve insertion order). -/
def pyInsert : List (String × α) → String → α → List (String × α)
  | [], k, v => [(k, v)]
  | (k0, v0) :: rest, k, v =>
    if k0 = k then (k0, v) :: rest else (k0, v0) :: pyInsert rest k v

/-- Python dict lookup `d[k]` as an option (first, hence unique, binding). -/
def pyLookup : List (String × α) → String → Option α
  | [], _ => none
  | (k0, v0) :: rest, k => if k0 = k then some v0 else pyLookup rest k

/-- The keys of a Python dict, in insertion order. -/
def pyKeys (d : List (String × α)) : List String :=
  d.map Prod.fst

/-- A node of an HDF5 file hierarchy: a dataset with its shape, or a group with
named entries (h5py `Dataset` and `Group`). -/
inductive H5Node where
  | dataset (shape : List Nat)
  | group (entries : List (String × H5Node))

mutual

/-- One `key` iteration of `_find_h5_datasets`: a dataset contributes its path
when its shape has 4 dimensions, a group is scanned recursively under the
extended path. -/
def findDatasetsEntry (data_path key : String) : H5Node → List String
  | H5Node.dataset shape =>
    if shape.length = 4 then [data_path ++ "/" ++ key] else []
  | H5Node.group entries => find_h5_datasets (data_path ++ "/" ++ key) entries

/-- `ImportParamWidget._find_h5_datasets` (lines 386-395): recursively collect
the paths of all 4-dimensional datasets under a group's entries. -/
def find_h5_datasets (data_path : String) : List (String × H5Node) → List String
  | [] => []
  | (key, node) :: rest =>
    findDatasetsEntry data_path key node ++ find_h5_datasets data_path rest

end

/-- Specification-side description of what a dataset path denotes: follow a key
path down the hierarchy, entering groups by key lookup. -/
def resolveNode (n : H5Node) : List String → Option H5Node
  | [] => some n
  | k :: ks =>
    match n with
    | H5Node.dataset _ => none
    | H5Node.group entries =>
      match pyLookup entries k with
      | none => none
      | some sub => resolveNode sub ks

/-- The string an HDF5 key path renders to: "/k1/k2/.../kn". -/
def h5Path (keys : List String) : String :=
  keys.foldl (fun acc k => acc ++ "/" ++ k) ""

/-- No duplicate keys in a list. -/
def nodupKeys : List String → Bool
  | [] => true
  | k :: rest => (!(rest.contains k)) && nodupKeys rest

mutual

/-- An HDF5 node is well formed when every group in it has pairwise distinct
entry keys (as h5py guarantees). -/
def h5NodeWF : H5Node → Bool
  | H5Node.dataset _ => true
  | H5Node.group entries => nodupKeys (pyKeys entries) && h5EntriesWF entries

/-- All nodes of an entry list are well formed. -/
def h5EntriesWF : List (String × H5Node) → Bool
  | [] => true
  | (_, n) :: rest => h5NodeWF n && h5EntriesWF rest

end

/-- A well-formed HDF5 root (the `h5py.File` object behaves as a group). -/
def h5RootWF (root : List (String × H5Node)) : Bool :=
  nodupKeys (pyKeys root) && h5EntriesWF root

/-- The accessible file system, as far as `h5py.File(path, "r")` is concerned:
`none` models any failure to open the file. -/
def FileSys : Type :=
  String → Option (List (String × H5Node))

/-- `ImportParamWidget._get_h5_dataset_options` (lines 367-384): scan the opened
file from the root with an empty path prefix; any exception while opening is
swallowed and yields an empty option list. -/
def get_h5_dataset_options (fs : FileSys) (file_path : String) : List String :=
  match fs file_path with
  | none => []
  | some root => find_h5_datasets "" root

/-- The `type` field of a parameter specification; the dialog's registered
parameters use exactly these three kinds (spec section 3, `ParamSpec`). -/
inductive ParamType where
  | radio
  | check
  | function_menu
  deriving DecidableEq, Repr

/-- One entry of an import type's `params` list. -/
structure ParamSpec where
  name : String
  type : ParamType
  options : Option String
  deriving DecidableEq, Repr

/-- One entry of `ImportParamDialog.import_types`; `matchStr` is the
comma-separated `"match"` value and `video_class` names the `Video`
constructor capability. -/
structure ImportType where
  video_type : String
  matchStr : String
  video_class : String
  params : List ParamSpec
  deriving DecidableEq, Repr

/-- The `hdf5` entry of `import_types` (lines 80-96). -/
def hdf5ImportType : ImportType :=
  { video_type := "hdf5"
    matchStr := "h5,hdf5"
    video_class := "Video.from_hdf5"
    params :=
      [{ name := "dataset", type := ParamType.function_menu,
         options := some "_get_h5_dataset_options" },
       { name := "input_format", type := ParamType.radio,
         options := some "channels_first,channels_last" }] }

/-- The `mp4` entry of `import_types` (lines 97-107); its checkbox parameter
has no `options` value. -/
def mp4ImportType : ImportType :=
  { video_type := "mp4"
    matchStr := "mp4,avi"
    video_class := "Video.from_media"
    params := [{ name := "grayscale", type := ParamType.check, options := none }] }

/-- `ImportParamDialog.import_types` (lines 79-108), in registration order. -/
def importTypes : List ImportType :=
  [hdf5ImportType, mp4ImportType]

/-- Python's `str.split(sep)` for a one-character separator, on character
lists: `"".split(",") = [""]`, and separators delimit (possibly empty)
fields. -/
def splitCharList (sep : Char) : List Char → List (List Char)
  | [] => [[]]
  | c :: rest =>
    let r := splitCharList sep rest
    if c = sep then [] :: r
    else
      match r with
      | [] => [[c]]
      | g :: gs => (c :: g) :: gs

/-- Python's `s.split(sep)` for a one-character separator. -/
def strSplit (sep : Char) (s : String) : List String :=
  (splitCharList sep s.data).map String.mk

/-- Python's `s.endswith(suffix)`. -/
def strEndsWith (s suffix : String) : Bool :=
  List.isSuffixOf suffix.data s.data

/-- `file_name.endswith(tuple(import_type["match"].split(",")))` (line 124). -/
def suffixMatches (t : ImportType) (file_name : String) : Bool :=
  (strSplit ',' t.matchStr).any (fun suf => strEndsWith file_name suf)

/-- Lines 121-126: the first registered import type whose match list contains a
string the file name ends with (both registered types carry a `"match"` value,
so the `is not None` guard always passes). -/
def assignImportType (file_name : String) : Option ImportType :=
  importTypes.find? (fun t => suffixMatches t file_name)

/-- Build the widget for one parameter of `ImportParamWidget.make_layout`
(lines 304-333): a radio group checks its first option, a checkbox starts
unchecked, and a function menu resolves its option provider by name through
`getattr` — only `_get_h5_dataset_options` exists, any other name raises
`AttributeError` (and a missing options string raises `TypeError`). -/
def makeParamWidget (fs : FileSys) (file_path : String) (p : ParamSpec) :
    Except PyError QtWidget :=
  match p.type with
  | ParamType.radio =>
    match p.options with
    | none => .error (PyError.attributeError "split")
    | some s =>
      let option_list := strSplit ',' s
      .ok (QtWidget.radioGroup option_list (option_list.headD ""))
  | ParamType.check => .ok (QtWidget.checkBox p.name false)
  | ParamType.function_menu =>
    match p.options with
    | none => .error PyError.typeError
    | some fname =>
      if fname = "_get_h5_dataset_options" then
        let items := get_h5_dataset_options fs file_path
        .ok (QtWidget.comboBox items (items.headD ""))
      else .error (PyError.attributeError fname)

/-- The parameter loop of `make_layout`, filling the `widget_elements` dict in
declaration order. -/
def makeLayoutLoop (fs : FileSys) (file_path : String) :
    List ParamSpec → List (String × QtWidget) → Except PyError (List (String × QtWidget))
  | [], acc => .ok acc
  | p :: rest, acc =>
    match makeParamWidget fs file_path p with
    | .error e => .error e
    | .ok w => makeLayoutLoop fs file_path rest (pyInsert acc p.name w)

/-- `ImportParamWidget.make_layout` (lines 298-335), reduced to the
`widget_elements` state it leaves behind. -/
def make_layout (fs : FileSys) (file_path : String) (params : List ParamSpec) :
    Except PyError (List (String × QtWidget)) :=
  makeLayoutLoop fs file_path params []

/-- An `ImportItemWidget` row: the file, its import type, the enabled checkbox
(initially checked) and the parameter form's widget state. -/
structure ImportItemWidget where
  file_path : String
  import_type : ImportType
  enabled : Bool
  elements : List (String × QtWidget)
  deriving DecidableEq, Repr

/-- `ImportItemWidget.__init__` (lines 185-216): builds the parameter form via
`make_layout`; the initial `update_video` call swallows every exception
(lines 251-262), so row construction fails only if `make_layout` does. -/
def mkImportItemWidget (fs : FileSys) (file_path : String) (t : ImportType) :
    Except PyError ImportItemWidget :=
  match make_layout fs file_path t.params with
  | .error e => .error e
  | .ok elements =>
    .ok { file_path := file_path, import_type := t, enabled := true, elements := elements }

/-- The file loop of `ImportParamDialog.__init__` (lines 119-132): falsy (empty)
names are skipped; a matched name gets one row widget appended in input order; a
nonempty unmatched name raises `Exception("No match found for file type.")`,
aborting the whole construction. -/
def initImportWidgets (fs : FileSys) : List String → Except PyError (List ImportItemWidget)
  | [] => .ok []
  | f :: rest =>
    if f = "" then initImportWidgets fs rest
    else
      match assignImportType f with
      | some t =>
        match mkImportItemWidget fs f t with
        | .error e => .error e
        | .ok w =>
          match initImportWidgets fs rest with
          | .error e => .error e
          | .ok ws => .ok (w :: ws)
      | none => .error (PyError.exception "No match found for file type.")

/-- Read one parameter's current value in `get_values` (lines 354-364): look the
widget up by name (`KeyError` when absent) and query it with the method of its
expected kind (`AttributeError` when the stored widget is of another kind). -/
def paramValue (elements : List (String × QtWidget)) (name : String) :
    ParamType → Except PyError PVal
  | ParamType.radio =>
    match pyLookup elements name with
    | none => .error (PyError.keyError name)
    | some (QtWidget.radioGroup _ checked) => .ok (PVal.str checked)
    | some _ => .error (PyError.attributeError "checkedButton")
  | ParamType.check =>
    match pyLookup elements name with
    | none => .error (PyError.keyError name)
    | some (QtWidget.checkBox _ b) => .ok (PVal.boolv b)
    | some _ => .error (PyError.attributeError "isChecked")
  | ParamType.function_menu =>
    match pyLookup elements name with
    | none => .error (PyError.keyError name)
    | some (QtWidget.comboBox _ txt) => .ok (PVal.str txt)
    | some _ => .error (PyError.attributeError "currentText")

/-- The parameter loop of `get_values`, filling `param_values`. -/
def getValuesLoop (elements : List (String × QtWidget)) :
    List ParamSpec → List (String × PVal) → Except PyError (List (String × PVal))
  | [], acc => .ok acc
  | p :: rest, acc =>
    match paramValue elements p.name p.type with
    | .error e => .error e
    | .ok v => getValuesLoop elements rest (pyInsert acc p.name v)

/-- `ImportParamWidget.get_values` (lines 337-365): a dict seeded with the file
path under key `"file"`, then one entry per declared parameter. -/
def get_values (file_path : String) (params : List ParamSpec)
    (elements : List (String × QtWidget)) : Except PyError (List (String × PVal)) :=
  getValuesLoop elements params [("file", PVal.str file_path)]

/-- One element of the list `ImportVideos.go` returns (lines 229-241):
parameter dict, video type tag andvideo constructor capability. -/
structure ImportResult where
  params : List (String × PVal)
  video_type : String
  video_class : String
  deriving DecidableEq, Repr

/-- `ImportItemWidget.get_data` (lines 229-241). -/
def ImportItemWidget.rowData (w : ImportItemWidget) : Except PyError ImportResult :=
  match get_values w.file_path w.import_type.params w.elements with
  | .error e => .error e
  | .ok vals =>
    .ok { params := vals, video_type := w.import_type.video_type,
          video_class := w.import_type.video_class }

/-- `ImportParamDialog.get_data` (lines 152-167): append the data of every
enabled row to the list passed in (the caller passes `self.result`, so the list
grows in place) and return it. -/
def dialogGetData : List ImportItemWidget → List ImportResult → Except PyError (List ImportResult)
  | [], acc => .ok acc
  | w :: rest, acc =>
    if w.enabled then
      match w.rowData with
      | .error e => .error e
      | .ok d => dialogGetData rest (acc ++ [d])
    else dialogGetData rest acc

/-- `ImportVideos` instance state: the `result` list created in `__init__`. -/
structure ImportVideos where
  result : List ImportResult
  deriving DecidableEq, Repr

/-- `ImportVideos.__init__` (lines 36-37). -/
def ImportVideos.init : ImportVideos :=
  { result := [] }

/-- One run of the UI flow around a `go()` call: the file names the user picked
in the native dialog, whether the import dialog ended accepted, and the edits
(checkbox toggles, widget changes) the user performed on the rows before
closing — modelled as a function on the row list, applied before `get_data`. -/
structure GoSession where
  file_names : List String
  accepted : Bool
  edit : List ImportItemWidget → List ImportItemWidget

/-- `ImportVideos.go` (lines 39-63): with at least one selected file, construct
the parameter dialog from the file names; when the user accepts, the `accepted`
signal appends each enabled row's data to `self.result`; `go` returns
`self.result` — which on cancellation or zero selection is whatever the
instance had accumulated so far. -/
def ImportVideos.go (fs : FileSys) (session : GoSession) (s : ImportVideos) :
    Except PyError (List ImportResult × ImportVideos) :=
  if session.file_names.length > 0 then
    match initImportWidgets fs session.file_names with
    | .error e => .error e
    | .ok ws =>
      if session.accepted then
        match dialogGetData (session.edit ws) s.result with
        | .error e => .error e
        | .ok newResult => .ok (newResult, { result := newResult })
      else .ok (s.result, s)
  else .ok (s.result, s)

/-! ### Well-formedness of a parameter form's widget state -/

/-- The widget stored for a parameter supports the query `get_values` makes for
that parameter kind (`checkedButton`, `isChecked`, `currentText`). -/
def widgetOk : ParamType → Option QtWidget → Bool
  | ParamType.radio, some (QtWidget.radioGroup _ _) => true
  | ParamType.check, some (QtWidget.checkBox _ _) => true
  | ParamType.function_menu, some (QtWidget.comboBox _ _) => true
  | _, _ => false

/-- Every declared parameter has a widget of the matching kind in the form's
element dict — the state `make_layout` establishes and user interaction
preserves. -/
def elemsOk (params : List ParamSpec) (elements : List (String × QtWidget)) : Bool :=
  params.all (fun p => widgetOk p.type (pyLookup elements p.name))

/-! ### Concrete instances used by witnesses -/

/-- A concrete backbone: overall stride 4, one main tensor, two intermediate
features at strides 2 and 1. -/
def demoBackbone : Backbone :=
  { output_stride := 4
    make_backbone := fun _ =>
      (MainFeats.tensor (Tensor.raw "backbone_main"),
       MidFeats.flat
         [{ tensor := Tensor.raw "mid_s2", stride := 2 },
          { tensor := Tensor.raw "mid_s1", stride := 1 }]) }

/-- A model whose single head requires stride 8, matched by no feature map. -/
def c1Model : Model :=
  { backbone := demoBackbone, heads := [Head.centroidConfmaps none 8] }

/-- A model whose single head requires the backbone's stride 4. -/
def c2Model : Model :=
  { backbone := demoBackbone, heads := [Head.centroidConfmaps none 4] }

/-- A model whose single head requires stride 1, found only on the second
intermediate feature group. -/
def c3Model : Model :=
  { backbone := demoBackbone, heads := [Head.singleInstanceConfmaps ["part_a"] 1] }

/-- A configuration selecting a centroid head at the backbone's stride. -/
def c6Config : ModelConfig :=
  { backbone := BackboneConfig.unet demoBackbone
    heads := HeadsConfigOneof.centroid { anchor_part := none, output_stride := 4 } }

/-- The graph `make_model` builds for `c2Model` at shape (160, 160, 1). -/
def c6Graph : KerasModel :=
  { input := Tensor.input (160, 160, 1) "input"
    outputs := [[Tensor.conv2d 1 1 1 "same" "CentroidConfmapsHead_0"
      (Tensor.raw "backbone_main")]] }

/-- The graph `make_model` builds for `c3Model` at shape (160, 160, 1): the
stride-1 head is wired to the second intermediate feature. -/
def c3Graph : KerasModel :=
  { input := Tensor.input (160, 160, 1) "input"
    outputs := [[Tensor.conv2d 1 1 1 "same" "SingleInstanceConfmapsHead_0"
      (Tensor.raw "mid_s1")]] }

/-- A configuration whose single-instance head leaves `part_names` unset. -/
def c4Config : ModelConfig :=
  { backbone := BackboneConfig.unet demoBackbone
    heads := HeadsConfigOneof.singleInstance { part_names := none, output_stride := 2 } }

/-- A concrete skeleton. -/
def demoSkeleton : Skeleton :=
  { node_names := ["head", "thorax"], edge_names := [("head", "thorax")] }

/-- A file system on which every HDF5 open fails. -/
def noFS : FileSys := fun _ => none

/-- A concrete HDF5 hierarchy: one 4-dimensional dataset nested in a group,
one 2-dimensional dataset beside it, one 1-dimensional dataset at top level. -/
def demoRoot : List (String × H5Node) :=
  [("video", H5Node.group
      [("frames", H5Node.dataset [100, 320, 240, 1]),
       ("meta", H5Node.dataset [100, 2])]),
   ("labels", H5Node.dataset [10])]

/-- A file system exposing `demoRoot` under the name "demo.h5". -/
def demoFS : FileSys := fun path => if path = "demo.h5" then some demoRoot else none

/-- Widget state for the hdf5 parameter form used in the C8 witness. -/
def c8Elements : List (String × QtWidget) :=
  [("dataset", QtWidget.comboBox ["/video/frames"] "/video/frames"),
   ("input_format", QtWidget.radioGroup ["channels_first", "channels_last"] "channels_first")]

/-- A previously accumulated import result. -/
def demoImportResult : ImportResult :=
  { params := [("file", PVal.str "old.mp4"), ("grayscale", PVal.boolv false)]
    video_type := "mp4"
    video_class := "Video.from_media" }

/-- A session in which the user picks one file and cancels the dialog. -/
def cancelSession : GoSession :=
  { file_names := ["a.mp4"], accepted := false, edit := id }

/-- A session in which the user selects no files. -/
def zeroSession : GoSession :=
  { file_names := [], accepted := true, edit := id }

/-- A session in which the user picks one media file and accepts. -/
def acceptSession : GoSession :=
  { file_names := ["b.avi"], accepted := true, edit := id }

/-! ## Helper lemmas: `make_model` -/

theorem snd_mem_of_mem_enum {α : Type} {l : List α} {p : Nat × α}
    (hp : p ∈ l.enum) : p.2 ∈ l := by
  obtain ⟨i, x⟩ := p
  rw [List.enum_eq_zip_range] at hp
  exact (List.of_mem_zip hp).2

theorem make_model_ok_elim {m : Model} {shape : Nat × Nat × Nat} {g : KerasModel}
    (hok : m.make_model shape = .ok g) :
    ∃ gs outs, m.midGroups shape = .ok gs ∧
      buildOutputs m.backbone.output_stride (m.mainOutputs shape) gs m.heads = .ok outs ∧
      g = { input := Tensor.input shape "input", outputs := outs } := by
  unfold Model.make_model at hok
  split at hok
  · cases hok
  · rename_i gs heq
    split at hok
    · cases hok
    · rename_i outs heq2
      cases hok
      exact ⟨gs, outs, heq, heq2, rfl⟩

theorem buildOutputs_ok_get {bs : Nat} {xm : List Tensor}
    {gs : List (List IntermediateFeature)} :
    ∀ {heads : List Head} {outs : List (List Tensor)} {k : Nat} {h : Head},
      buildOutputs bs xm gs heads = .ok outs → heads[k]? = some h →
      ∃ o, outs[k]? = some o ∧ buildHeadOutput bs xm gs h = .ok o := by
  intro heads
  induction heads with
  | nil => intro outs k h hb hk; simp at hk
  | cons h0 rest ih =>
    intro outs k h hb hk
    rw [buildOutputs] at hb
    cases hb0 : buildHeadOutput bs xm gs h0 with
    | error e => rw [hb0] at hb; cases hb
    | ok o0 =>
      rw [hb0] at hb
      cases hr : buildOutputs bs xm gs rest with
      | error e => rw [hr] at hb; cases hb
      | ok outs0 =>
        rw [hr] at hb
        cases hb
        cases k with
        | zero =>
          simp only [List.getElem?_cons_zero, Option.some_inj] at hk
          exact ⟨o0, by simp, hk ▸ hb0⟩
        | succ k0 =>
          simp only [List.getElem?_cons_succ] at hk ⊢
          exact ih hr hk

theorem checkHeadNonEmpty_ok {xs o : List Tensor}
    (hok : checkHeadNonEmpty xs = .ok o) : o = xs ∧ xs ≠ [] := by
  unfold checkHeadNonEmpty at hok
  by_cases hlen : xs.length = 0
  · rw [if_pos hlen] at hok; cases hok
  · rw [if_neg hlen] at hok
    cases hok
    exact ⟨rfl, fun hc => hlen (by rw [hc]; rfl)⟩

theorem buildHeadOutput_main_ok {bs : Nat} {xm : List Tensor}
    {gs : List (List IntermediateFeature)} {h : Head} {o : List Tensor}
    (hst : h.output_stride = bs) (hok : buildHeadOutput bs xm gs h = .ok o) :
    o = mainHeadOutput h xm := by
  unfold buildHeadOutput at hok
  rw [if_pos hst] at hok
  exact (checkHeadNonEmpty_ok hok).1

theorem buildHeadOutput_mid_ok {bs : Nat} {xm : List Tensor}
    {gs : List (List IntermediateFeature)} {h : Head} {o : List Tensor}
    (hst : ¬h.output_stride = bs) (hok : buildHeadOutput bs xm gs h = .ok o) :
    midHeadOutput h gs = .ok o := by
  unfold buildHeadOutput at hok
  rw [if_neg hst] at hok
  cases hmid : midHeadOutput h gs with
  | error e => rw [hmid] at hok; cases hok
  | ok xs =>
    rw [hmid] at hok
    rw [(checkHeadNonEmpty_ok hok).1]

theorem midHeadOutput_first_match (h : Head) :
    ∀ (pre : List (List IntermediateFeature)) (f0 : IntermediateFeature)
      (fr : List IntermediateFeature) (post : List (List IntermediateFeature)),
      (∀ grp ∈ pre, ∃ g0 gr, grp = g0 :: gr ∧ (∀ f ∈ grp, f.stride = g0.stride) ∧
        g0.stride ≠ h.output_stride) →
      (∀ f ∈ f0 :: fr, f.stride = f0.stride) →
      f0.stride = h.output_stride →
      midHeadOutput h (pre ++ (f0 :: fr) :: post) =
        .ok ((f0 :: fr).enum.map
          (fun p => conv1x1 h.channels (headLayerName h p.1) p.2.tensor)) := by
  intro pre
  induction pre with
  | nil =>
    intro f0 fr post _ hgrp hmatch
    rw [List.nil_append, midHeadOutput, if_pos hgrp, if_pos hmatch]
  | cons grp0 rest ih =>
    intro f0 fr post hpre hgrp hmatch
    obtain ⟨g0, gr, hshape, hall, hne⟩ := hpre grp0 (by simp)
    subst hshape
    rw [List.cons_append, midHeadOutput, if_pos hall, if_neg hne]
    exact ih f0 fr post (fun g hg => hpre g (by simp [hg])) hgrp hmatch

/-! ## C1 and C2 -/

/-- C1: the claim states that a head whose required stride matches neither the
backbone's output stride nor any intermediate group fails `make_model` with a
`ValueError` naming the unmet stride.  On the code, the raise statement's
f-string reads `output.stride`, an attribute the heads do not have, so the
failure is a deterministic `AttributeError` that names no stride: here,
`c1Model`'s head requires stride 8 while the backbone offers 4 and the
intermediate features offer 2 and 1. -/
theorem c1_unmatched_stride_attribute_error :
    c1Model.make_model (160, 160, 1) = .error (PyError.attributeError "stride") := rfl

/-- C2: for every model and every head whose required output stride equals the
backbone's overall output stride, a successful `make_model` attaches to that
head exactly one 1x1 convolution (with the head's channel count, named
`{HeadTypeName}_{index}`) per tensor of the normalized main-output list, and
every output tensor of that head projects a main-output tensor — never an
intermediate feature. -/
theorem c2_main_stride_head_wired_to_main
    (m : Model) (shape : Nat × Nat × Nat) (g : KerasModel) (k : Nat) (h : Head)
    (hok : m.make_model shape = .ok g)
    (hk : m.heads[k]? = some h)
    (hstride : h.output_stride = m.backbone.output_stride) :
    g.outputs[k]? = some ((m.mainOutputs shape).enum.map
      (fun p => Tensor.conv2d h.channels 1 1 "same"
        (h.className ++ "_" ++ toString p.1) p.2)) ∧
    ∀ o, g.outputs[k]? = some o → ∀ t ∈ o,
      ∃ x ∈ m.mainOutputs shape, ∃ i : Nat,
        t = Tensor.conv2d h.channels 1 1 "same" (h.className ++ "_" ++ toString i) x := by
  obtain ⟨gs, outs, hgs, hbo, hg⟩ := make_model_ok_elim hok
  obtain ⟨o, ho, hbh⟩ := buildOutputs_ok_get hbo hk
  have hmain : o = mainHeadOutput h (m.mainOutputs shape) := buildHeadOutput_main_ok hstride hbh
  subst hg
  constructor
  · rw [ho, hmain]; rfl
  · intro o2 ho2 t ht
    rw [ho] at ho2
    cases ho2
    rw [hmain] at ht
    unfold mainHeadOutput at ht
    obtain ⟨p, hp, hpt⟩ := List.mem_map.mp ht
    exact ⟨p.2, snd_mem_of_mem_enum hp, p.1, hpt.symm⟩

/-- Witness for C2 at a concrete model: the centroid head at stride 4 is wired
to the projected main output of `demoBackbone`. -/
theorem c2_main_stride_witness :
    c6Graph.outputs[0]? = some ((c2Model.mainOutputs (160, 160, 1)).enum.map
      (fun p => Tensor.conv2d (Head.centroidConfmaps none 4).channels 1 1 "same"
        ((Head.centroidConfmaps none 4).className ++ "_" ++ toString p.1) p.2)) ∧
    ∀ o, c6Graph.outputs[0]? = some o → ∀ t ∈ o,
      ∃ x ∈ c2Model.mainOutputs (160, 160, 1), ∃ i : Nat,
        t = Tensor.conv2d (Head.centroidConfmaps none 4).channels 1 1 "same"
          ((Head.centroidConfmaps none 4).className ++ "_" ++ toString i) x :=
  c2_main_stride_head_wired_to_main c2Model (160, 160, 1) c6Graph 0
    (Head.centroidConfmaps none 4) rfl rfl rfl

/-! ## C3 -/

/-- C3: for every model and every head whose required output stride differs
from the backbone's, a successful `make_model` scans the intermediate feature
groups in order and wires the head to every tensor of the first group whose
(shared, asserted) stride equals the head's required stride — one 1x1
projection per member in group order, and nothing from any later group. -/
theorem c3_first_matching_group
    (m : Model) (shape : Nat × Nat × Nat) (g : KerasModel) (k : Nat) (h : Head)
    (gs pre post : List (List IntermediateFeature))
    (f0 : IntermediateFeature) (fr : List IntermediateFeature)
    (hok : m.make_model shape = .ok g)
    (hk : m.heads[k]? = some h)
    (hstride : ¬h.output_stride = m.backbone.output_stride)
    (hgs : m.midGroups shape = .ok gs)
    (hdecomp : gs = pre ++ (f0 :: fr) :: post)
    (hpre : ∀ grp ∈ pre, ∃ g0 gr, grp = g0 :: gr ∧
      (∀ f ∈ grp, f.stride = g0.stride) ∧ g0.stride ≠ h.output_stride)
    (hgrp : ∀ f ∈ f0 :: fr, f.stride = f0.stride)
    (hmatch : f0.stride = h.output_stride) :
    g.outputs[k]? = some ((f0 :: fr).enum.map
      (fun p => Tensor.conv2d h.channels 1 1 "same"
        (h.className ++ "_" ++ toString p.1) p.2.tensor)) := by
  obtain ⟨gs2, outs, hgs2, hbo, hg⟩ := make_model_ok_elim hok
  rw [hgs] at hgs2
  cases hgs2
  obtain ⟨o, ho, hbh⟩ := buildOutputs_ok_get hbo hk
  have hmid := buildHeadOutput_mid_ok hstride hbh
  rw [hdecomp, midHeadOutput_first_match h pre f0 fr post hpre hgrp hmatch] at hmid
  cases hmid
  subst hg
  rw [ho]
  rfl

/-- Witness for C3 at a concrete model: the stride-1 head skips the stride-2
group and is wired to the stride-1 intermediate feature. -/
theorem c3_first_matching_group_witness :
    c3Graph.outputs[0]? =
      some (([({ tensor := Tensor.raw "mid_s1", stride := 1 } : IntermediateFeature)]).enum.map
        (fun p => Tensor.conv2d (Head.singleInstanceConfmaps ["part_a"] 1).channels 1 1 "same"
          ((Head.singleInstanceConfmaps ["part_a"] 1).className ++ "_" ++ toString p.1)
          p.2.tensor)) :=
  c3_first_matching_group c3Model (160, 160, 1) c3Graph 0
    (Head.singleInstanceConfmaps ["part_a"] 1)
    [[{ tensor := Tensor.raw "mid_s2", stride := 2 }],
     [{ tensor := Tensor.raw "mid_s1", stride := 1 }]]
    [[{ tensor := Tensor.raw "mid_s2", stride := 2 }]] []
    { tensor := Tensor.raw "mid_s1", stride := 1 } []
    rfl rfl (by decide) rfl rfl
    (by
      intro grp hg
      simp only [List.mem_singleton] at hg
      subst hg
      exact ⟨{ tensor := Tensor.raw "mid_s2", stride := 2 }, [], rfl, by decide, by decide⟩)
    (by decide) rfl

/-! ## C6 -/

theorem midHeadOutput_names {h : Head} :
    ∀ (gs : List (List IntermediateFeature)) (o : List Tensor),
      midHeadOutput h gs = .ok o → ∀ t ∈ o, ∃ i : Nat, t.outName = headLayerName h i := by
  intro gs
  induction gs with
  | nil =>
    intro o ho t ht
    cases ho
    simp at ht
  | cons grp rest ih =>
    intro o ho t ht
    cases grp with
    | nil => rw [midHeadOutput] at ho; cases ho
    | cons f0 fr =>
      rw [midHeadOutput] at ho
      by_cases hall : ∀ f ∈ f0 :: fr, f.stride = f0.stride
      · rw [if_pos hall] at ho
        by_cases hmat : f0.stride = h.output_stride
        · rw [if_pos hmat] at ho
          cases ho
          obtain ⟨p, _, hpt⟩ := List.mem_map.mp ht
          exact ⟨p.1, by rw [← hpt]; rfl⟩
        · rw [if_neg hmat] at ho
          exact ih o ho t ht
      · rw [if_neg hall] at ho; cases ho

theorem buildHeadOutput_names {bs : Nat} {xm : List Tensor}
    {gs : List (List IntermediateFeature)} {h : Head} {o : List Tensor}
    (hok : buildHeadOutput bs xm gs h = .ok o) :
    ∀ t ∈ o, ∃ i : Nat, t.outName = headLayerName h i := by
  by_cases hst : h.output_stride = bs
  · have hmain := buildHeadOutput_main_ok hst hok
    subst hmain
    intro t ht
    obtain ⟨p, _, hpt⟩ := List.mem_map.mp ht
    exact ⟨p.1, by rw [← hpt]; rfl⟩
  · exact midHeadOutput_names gs o (buildHeadOutput_mid_ok hst hok)

theorem buildOutputs_names {bs : Nat} {xm : List Tensor}
    {gs : List (List IntermediateFeature)} :
    ∀ {heads : List Head} {outs : List (List Tensor)},
      buildOutputs bs xm gs heads = .ok outs →
      ∀ t ∈ outs.flatten, ∃ h ∈ heads, ∃ i : Nat, t.outName = headLayerName h i := by
  intro heads
  induction heads with
  | nil =>
    intro outs hb t ht
    cases hb
    simp at ht
  | cons h0 rest ih =>
    intro outs hb t ht
    rw [buildOutputs] at hb
    cases hb0 : buildHeadOutput bs xm gs h0 with
    | error e => rw [hb0] at hb; cases hb
    | ok o0 =>
      rw [hb0] at hb
      cases hr : buildOutputs bs xm gs rest with
      | error e => rw [hr] at hb; cases hb
      | ok outs0 =>
        rw [hr] at hb
        cases hb
        rw [List.flatten_cons] at ht
        rcases List.mem_append.mp ht with htl | htr
        · exact ⟨h0, by simp, buildHeadOutput_names hb0 t htl⟩
        · obtain ⟨h1, hh1, hi⟩ := ih hr t htr
          exact ⟨h1, by simp [hh1], hi⟩

/-- C6: for a model constructed by `from_config`, two `make_model` calls at the
same input shape yield graphs with identical output name lists (`make_model`
reads but never mutates the model, so it is deterministic), and every output is
named `{HeadTypeName}_{index}` after one of the model's heads. -/
theorem c6_roundtrip_output_names
    (cfg : ModelConfig) (sk : Option Skeleton) (m : Model)
    (shape : Nat × Nat × Nat) (g1 g2 : KerasModel)
    (_hcfg : Model.from_config cfg sk = .ok m)
    (h1 : m.make_model shape = .ok g1)
    (h2 : m.make_model shape = .ok g2) :
    outputNames g1 = outputNames g2 ∧
    ∀ n ∈ outputNames g1, ∃ h ∈ m.heads, ∃ i : Nat,
      n = h.className ++ "_" ++ toString i := by
  have hg : g1 = g2 := by rw [h1] at h2; cases h2; rfl
  refine ⟨by rw [hg], ?_⟩
  intro n hn
  obtain ⟨gs, outs, hgs, hbo, hgg⟩ := make_model_ok_elim h1
  subst hgg
  obtain ⟨t, ht, hnt⟩ := List.mem_map.mp hn
  obtain ⟨h, hh, i, hi⟩ := buildOutputs_names hbo t ht
  exact ⟨h, hh, i, by rw [← hnt, hi]; rfl⟩

/-- Witness for C6 at a concrete configuration: the centroid model built by
`from_config` produces the same, well-named output set on repeated calls. -/
theorem c6_roundtrip_witness :
    outputNames c6Graph = outputNames c6Graph ∧
    ∀ n ∈ outputNames c6Graph, ∃ h ∈ c2Model.heads, ∃ i : Nat,
      n = h.className ++ "_" ++ toString i :=
  c6_roundtrip_output_names c6Config none c2Model (160, 160, 1) c6Graph c6Graph
    rfl rfl rfl

/-! ## C4 -/

/-- C4: for every configuration whose selected head variant requires part names
or edge names but leaves them unset, `from_config` raises `ValueError` when no
skeleton is supplied (before any graph is built — `from_config` never
constructs a graph), and with a skeleton it takes the missing names from the
skeleton's `node_names` or `edge_names`. -/
theorem c4_missing_names_skeleton_fallback (cfg : ModelConfig) (sk : Skeleton) :
    (∀ hc, cfg.heads = HeadsConfigOneof.singleInstance hc → hc.part_names = none →
      Except.map Model.heads (Model.from_config cfg none) =
        .error (PyError.valueError skeletonRequiredMsg) ∧
      Except.map Model.heads (Model.from_config cfg (some sk)) =
        .ok [Head.singleInstanceConfmaps sk.node_names hc.output_stride]) ∧
    (∀ hc, cfg.heads = HeadsConfigOneof.centeredInstance hc → hc.part_names = none →
      Except.map Model.heads (Model.from_config cfg none) =
        .error (PyError.valueError skeletonRequiredMsg) ∧
      Except.map Model.heads (Model.from_config cfg (some sk)) =
        .ok [Head.centeredInstanceConfmaps sk.node_names hc.output_stride]) ∧
    (∀ hc, cfg.heads = HeadsConfigOneof.multiInstance hc →
      hc.multi_instance.part_names = none ∨ hc.pafs.edges = none →
      Except.map Model.heads (Model.from_config cfg none) =
        .error (PyError.valueError skeletonRequiredMsg) ∧
      Except.map Model.heads (Model.from_config cfg (some sk)) =
        .ok [Head.multiInstanceConfmaps (hc.multi_instance.part_names.getD sk.node_names)
               hc.multi_instance.output_stride,
             Head.partAffinityFields (hc.pafs.edges.getD sk.edge_names)
               hc.pafs.output_stride]) := by
  refine ⟨?_, ?_, ?_⟩
  · intro hc hheads hnone
    constructor <;>
      simp [Model.from_config, hheads, hnone, resolveNames, ensure_list, Except.map]
  · intro hc hheads hnone
    constructor <;>
      simp [Model.from_config, hheads, hnone, resolveNames, ensure_list, Except.map]
  · intro hc hheads hmiss
    rcases hp2 : hc.multi_instance.part_names with _ | pn <;>
      rcases he2 : hc.pafs.edges with _ | es
    · constructor <;>
        simp [Model.from_config, hheads, hp2, he2, resolveNames, ensure_list, Except.map]
    · constructor <;>
        simp [Model.from_config, hheads, hp2, he2, resolveNames, ensure_list, Except.map]
    · constructor <;>
        simp [Model.from_config, hheads, hp2, he2, resolveNames, ensure_list, Except.map]
    · rcases hmiss with hm | hm
      · rw [hm] at hp2; cases hp2
      · rw [hm] at he2; cases he2

/-- Witness for C4 at a concrete configuration: a single-instance head with
unset part names fails without a skeleton and takes the part names from a
supplied skeleton. -/
theorem c4_missing_names_witness :
    Except.map Model.heads (Model.from_config c4Config none) =
      .error (PyError.valueError skeletonRequiredMsg) ∧
    Except.map Model.heads (Model.from_config c4Config (some demoSkeleton)) =
      .ok [Head.singleInstanceConfmaps ["head", "thorax"] 2] :=
  (c4_missing_names_skeleton_fallback c4Config demoSkeleton).1
    { part_names := none, output_stride := 2 } rfl rfl

/-! ## C5 -/

theorem mem_importTypes_of_assign {f : String} {t : ImportType}
    (h : assignImportType f = some t) : t ∈ importTypes :=
  List.mem_of_find?_eq_some h

theorem mkImportItemWidget_registered_ok (fs : FileSys) (f : String) (t : ImportType)
    (ht : t ∈ importTypes) :
    ∃ w, mkImportItemWidget fs f t = .ok w ∧
      w.file_path = f ∧ w.import_type = t ∧ w.enabled = true := by
  simp only [importTypes, List.mem_cons, List.mem_singleton, List.not_mem_nil, or_false] at ht
  rcases ht with rfl | rfl
  · exact ⟨_, rfl, rfl, rfl, rfl⟩
  · exact ⟨_, rfl, rfl, rfl, rfl⟩

theorem initImportWidgets_cons_matched (fs : FileSys) {f : String} {t : ImportType}
    (rest : List String) (hne : ¬f = "") (h : assignImportType f = some t) :
    initImportWidgets fs (f :: rest) =
      (match mkImportItemWidget fs f t with
       | .error e => .error e
       | .ok w =>
         match initImportWidgets fs rest with
         | .error e => .error e
         | .ok ws => .ok (w :: ws)) := by
  rw [initImportWidgets, if_neg hne, h]

/-- Counterexample for C5 as stated: the empty file name matches no registered
type of the import table, yet constructing the dialog from `[""]` does not
raise — the `if file_name:` guard silently skips falsy names, so construction
succeeds with zero rows. -/
theorem c5_empty_name_counterexample :
    assignImportType "" = none ∧ initImportWidgets noFS [""] = .ok [] :=
  ⟨by decide, rfl⟩

/-- C5 (amended): restricted to nonempty file names — empty names are silently
skipped.  If some nonempty selected name matches no registered import type, the
dialog construction raises `Exception("No match found for file type.")`, so no
dialog is ever shown; if every nonempty name matches, construction succeeds
with exactly one enabled row per nonempty file, in input order, each carrying
its first matching import type. -/
theorem c5_amended_rows_and_abort (fs : FileSys) (files : List String) :
    ((∃ f ∈ files, f ≠ "" ∧ assignImportType f = none) →
      initImportWidgets fs files = .error (PyError.exception "No match found for file type.")) ∧
    ((∀ f ∈ files, f ≠ "" → (assignImportType f).isSome) →
      ∃ ws, initImportWidgets fs files = .ok ws ∧
        ws.map ImportItemWidget.file_path = files.filter (fun g => !(g == "")) ∧
        ∀ w ∈ ws, assignImportType w.file_path = some w.import_type ∧ w.enabled = true) := by
  induction files with
  | nil =>
    constructor
    · rintro ⟨f, hf, _⟩
      simp at hf
    · intro _
      exact ⟨[], rfl, rfl, by simp⟩
  | cons f rest ih =>
    constructor
    · rintro ⟨f2, hf2, hne, hnone⟩
      by_cases hfe : f = ""
      · subst hfe
        rw [initImportWidgets, if_pos rfl]
        rcases List.mem_cons.mp hf2 with rfl | hmem
        · exact absurd rfl hne
        · exact ih.1 ⟨f2, hmem, hne, hnone⟩
      · rcases List.mem_cons.mp hf2 with rfl | hmem
        · rw [initImportWidgets, if_neg hfe, hnone]
        · cases hassign : assignImportType f with
          | none => rw [initImportWidgets, if_neg hfe, hassign]
          | some t =>
            obtain ⟨w, hw, _, _, _⟩ :=
              mkImportItemWidget_registered_ok fs f t (mem_importTypes_of_assign hassign)
            rw [initImportWidgets_cons_matched fs rest hfe hassign]
            simp only [hw, ih.1 ⟨f2, hmem, hne, hnone⟩]
    · intro hall
      by_cases hfe : f = ""
      · subst hfe
        rw [initImportWidgets, if_pos rfl]
        obtain ⟨ws, hws, hmap, hprop⟩ := ih.2 (fun g hg hne => hall g (by simp [hg]) hne)
        refine ⟨ws, hws, ?_, hprop⟩
        rw [hmap]
        simp
      · have hsome := hall f (by simp) hfe
        cases hassign : assignImportType f with
        | none => rw [hassign] at hsome; simp at hsome
        | some t =>
          obtain ⟨w, hw, hwf, hwt, hwe⟩ :=
            mkImportItemWidget_registered_ok fs f t (mem_importTypes_of_assign hassign)
          obtain ⟨ws, hws, hmap, hprop⟩ := ih.2 (fun g hg hne => hall g (by simp [hg]) hne)
          refine ⟨w :: ws, ?_, ?_, ?_⟩
          · rw [initImportWidgets_cons_matched fs rest hfe hassign]
            simp only [hw, hws]
          · rw [List.map_cons, hmap, hwf, List.filter_cons_of_pos (by simp [hfe])]
          · intro w2 hw2
            rcases List.mem_cons.mp hw2 with rfl | hmem
            · exact ⟨by rw [hwf, hwt]; exact hassign, hwe⟩
            · exact hprop w2 hmem

/-- Witness for the amended C5: a list with an unmatched nonempty name aborts
construction; a list with one matched media file yields one enabled row. -/
theorem c5_amended_witness :
    initImportWidgets noFS ["a.xyz"] =
      .error (PyError.exception "No match found for file type.") ∧
    ∃ ws, initImportWidgets noFS ["b.mp4"] = .ok ws ∧
      ws.map ImportItemWidget.file_path = ["b.mp4"].filter (fun g => !(g == "")) ∧
      ∀ w ∈ ws, assignImportType w.file_path = some w.import_type ∧ w.enabled = true :=
  ⟨(c5_amended_rows_and_abort noFS ["a.xyz"]).1
      ⟨"a.xyz", by simp, by decide, by decide⟩,
   (c5_amended_rows_and_abort noFS ["b.mp4"]).2
      (by intro f hf _; simp at hf; subst hf; decide)⟩

/-! ## C10 -/

/-- C10: file-type matching is suffix-based, not extension-based — a name is
assigned the first registered type (hdf5 before mp4) one of whose comma-split
match strings the name merely ends with, no dot required (so "datah5" gets an
hdf5 row), and empty file names are silently skipped without a row and without
raising. -/
theorem c10_suffix_based_matching :
    (∀ f : String, assignImportType f =
      if strEndsWith f "h5" || strEndsWith f "hdf5" then some hdf5ImportType
      else if strEndsWith f "mp4" || strEndsWith f "avi" then some mp4ImportType
      else none) ∧
    (∃ ws, initImportWidgets noFS ["datah5"] = .ok ws ∧
      ws.map (fun w => w.import_type.video_type) = ["hdf5"]) ∧
    (∀ (fs : FileSys) (rest : List String),
      initImportWidgets fs ("" :: rest) = initImportWidgets fs rest) := by
  refine ⟨?_, ⟨_, rfl, rfl⟩, fun fs rest => by rw [initImportWidgets, if_pos rfl]⟩
  intro f
  have e1 : suffixMatches hdf5ImportType f = (strEndsWith f "h5" || strEndsWith f "hdf5") := by
    rw [suffixMatches, show strSplit ',' hdf5ImportType.matchStr = ["h5", "hdf5"] from rfl]
    simp [List.any]
  have e2 : suffixMatches mp4ImportType f = (strEndsWith f "mp4" || strEndsWith f "avi") := by
    rw [suffixMatches, show strSplit ',' mp4ImportType.matchStr = ["mp4", "avi"] from rfl]
    simp [List.any]
  rw [assignImportType, importTypes]
  cases hA : strEndsWith f "h5" <;> cases hB : strEndsWith f "hdf5" <;>
    cases hC : strEndsWith f "mp4" <;> cases hD : strEndsWith f "avi" <;>
      simp [List.find?, e1, e2, hA, hB, hC, hD]

/-! ## C8 -/

theorem pyInsert_not_mem {α : Type} {d : List (String × α)} {k : String} (v : α)
    (hk : k ∉ pyKeys d) : pyInsert d k v = d ++ [(k, v)] := by
  induction d with
  | nil => rfl
  | cons e rest ih =>
    obtain ⟨k0, v0⟩ := e
    simp only [pyKeys, List.map_cons, List.mem_cons, not_or] at hk
    rw [pyInsert, if_neg (fun hc => hk.1 hc.symm), List.cons_append,
      ih (by simpa [pyKeys] using hk.2)]

theorem pyLookup_append_single {α : Type} (d : List (String × α)) (k0 k : String)
    (v : α) (h : ¬k = k0) : pyLookup (d ++ [(k0, v)]) k = pyLookup d k := by
  induction d with
  | nil =>
    rw [List.nil_append]
    show (if k0 = k then some v else pyLookup [] k) = pyLookup ([] : List (String × α)) k
    rw [if_neg (fun hc => h hc.symm)]
  | cons e rest ih =>
    obtain ⟨k1, v1⟩ := e
    by_cases hk1 : k1 = k
    · rw [List.cons_append, pyLookup, if_pos hk1, pyLookup, if_pos hk1]
    · rw [List.cons_append, pyLookup, if_neg hk1, pyLookup, if_neg hk1, ih]

theorem paramValue_ok {elements : List (String × QtWidget)} {p : ParamSpec}
    (h : widgetOk p.type (pyLookup elements p.name) = true) :
    ∃ v, paramValue elements p.name p.type = .ok v := by
  cases hl : pyLookup elements p.name with
  | none =>
    rw [hl] at h
    cases hp : p.type <;> rw [hp] at h <;> simp [widgetOk] at h
  | some w =>
    rw [hl] at h
    cases hp : p.type <;> cases w <;> rw [hp] at h <;>
      first
        | exact ⟨_, by rw [paramValue, hl]⟩
        | simp [widgetOk] at h

theorem getValuesLoop_ok (elements : List (String × QtWidget)) :
    ∀ (params : List ParamSpec) (acc : List (String × PVal)),
      (∀ p ∈ params, widgetOk p.type (pyLookup elements p.name) = true) →
      (∀ p ∈ params, p.name ∉ pyKeys acc) →
      (params.map ParamSpec.name).Nodup →
      ∃ d, getValuesLoop elements params acc = .ok d ∧
        pyKeys d = pyKeys acc ++ params.map ParamSpec.name ∧
        (∀ k, k ∉ params.map ParamSpec.name → pyLookup d k = pyLookup acc k) := by
  intro params
  induction params with
  | nil => intro acc _ _ _; exact ⟨acc, rfl, by simp, fun k _ => rfl⟩
  | cons p rest ih =>
    intro acc hwf hfresh hnodup
    obtain ⟨v, hv⟩ := paramValue_ok (hwf p (by simp))
    have hnotin : p.name ∉ pyKeys acc := hfresh p (by simp)
    have hstep : getValuesLoop elements (p :: rest) acc =
        getValuesLoop elements rest (acc ++ [(p.name, v)]) := by
      rw [getValuesLoop, hv]
      show getValuesLoop elements rest (pyInsert acc p.name v) = _
      rw [pyInsert_not_mem v hnotin]
    rw [List.map_cons, List.nodup_cons] at hnodup
    obtain ⟨d, hd, hkeys, hlook⟩ := ih (acc ++ [(p.name, v)])
      (fun q hq => hwf q (by simp [hq]))
      (by
        intro q hq
        rw [pyKeys, List.map_append, ← pyKeys]
        simp only [List.mem_append]
        rintro (hqa | hqs)
        · exact hfresh q (by simp [hq]) hqa
        · have : q.name = p.name := by simpa [pyKeys] using hqs
          exact hnodup.1 (this ▸ List.mem_map_of_mem ParamSpec.name hq))
      hnodup.2
    refine ⟨d, by rw [hstep, hd], ?_, ?_⟩
    · rw [hkeys, pyKeys, List.map_append, ← pyKeys]
      simp [pyKeys]
    · intro k hk
      simp only [List.map_cons, List.mem_cons, not_or] at hk
      rw [hlook k hk.2, pyLookup_append_single _ _ _ _ hk.1]

/-- C8: for every registered import type and any file path, on a parameter form
whose widget state is well formed for the declared parameters, `get_values`
returns the file path under key `"file"` plus exactly one entry per declared
parameter, keyed by the parameter's name, in declaration order. -/
theorem c8_get_values_file_plus_params (t : ImportType) (file_path : String)
    (elements : List (String × QtWidget))
    (ht : t ∈ importTypes)
    (hwf : elemsOk t.params elements = true) :
    ∃ d, get_values file_path t.params elements = .ok d ∧
      pyKeys d = "file" :: t.params.map ParamSpec.name ∧
      pyLookup d "file" = some (PVal.str file_path) := by
  have hside : (t.params.map ParamSpec.name).Nodup ∧ "file" ∉ t.params.map ParamSpec.name := by
    simp only [importTypes, List.mem_cons, List.mem_singleton, List.not_mem_nil,
      or_false] at ht
    rcases ht with rfl | rfl <;> exact ⟨by decide, by decide⟩
  have hwf2 : ∀ p ∈ t.params, widgetOk p.type (pyLookup elements p.name) = true := by
    intro p hp
    exact List.all_eq_true.mp hwf p hp
  obtain ⟨d, hd, hkeys, hlook⟩ := getValuesLoop_ok elements t.params
    [("file", PVal.str file_path)] hwf2
    (by
      intro p hp hmem
      have hpn : p.name = "file" := by simpa [pyKeys] using hmem
      exact hside.2 (hpn ▸ List.mem_map_of_mem ParamSpec.name hp))
    hside.1
  refine ⟨d, hd, by rw [hkeys]; rfl, ?_⟩
  rw [hlook "file" hside.2]
  rfl

/-- Witness for C8 on the hdf5 import type with a concrete widget state. -/
theorem c8_get_values_witness :
    ∃ d, get_values "demo.h5" hdf5ImportType.params c8Elements = .ok d ∧
      pyKeys d = "file" :: hdf5ImportType.params.map ParamSpec.name ∧
      pyLookup d "file" = some (PVal.str "demo.h5") :=
  c8_get_values_file_plus_params hdf5ImportType "demo.h5" c8Elements
    (by simp [importTypes]) (by decide)

/-! ## C9 -/

theorem dialogGetData_extends :
    ∀ (ws : List ImportItemWidget) (acc d : List ImportResult),
      dialogGetData ws acc = .ok d → ∃ extra, d = acc ++ extra := by
  intro ws
  induction ws with
  | nil =>
    intro acc d h
    cases h
    exact ⟨[], by simp⟩
  | cons w rest ih =>
    intro acc d h
    rw [dialogGetData] at h
    by_cases he : w.enabled = true
    · rw [if_pos he] at h
      cases hr : w.rowData with
      | error e => rw [hr] at h; cases h
      | ok r =>
        rw [hr] at h
        obtain ⟨extra, hx⟩ := ih (acc ++ [r]) d h
        exact ⟨r :: extra, by rw [hx]; simp⟩
    · rw [if_neg he] at h
      exact ih acc d h

/-- C9: `result` is instance state created once in `__init__` and `go` returns
it: on any instance, a `go` that selects zero files, or constructs the dialog
and is cancelled, returns the instance's accumulated result list unchanged —
empty only on a fresh instance; an accepted `go` returns the old results with
the accepted rows' data appended, and stores that same list back on the
instance. -/
theorem c9_result_accumulates :
    ImportVideos.init.result = [] ∧
    (∀ (fs : FileSys) (s : ImportVideos) (sess : GoSession),
      sess.file_names = [] → ImportVideos.go fs sess s = .ok (s.result, s)) ∧
    (∀ (fs : FileSys) (s : ImportVideos) (sess : GoSession) (ws : List ImportItemWidget),
      sess.accepted = false → initImportWidgets fs sess.file_names = .ok ws →
      ImportVideos.go fs sess s = .ok (s.result, s)) ∧
    (∀ (fs : FileSys) (s : ImportVideos) (sess : GoSession) (ws : List ImportItemWidget)
        (data : List ImportResult),
      sess.accepted = true → sess.file_names ≠ [] →
      initImportWidgets fs sess.file_names = .ok ws →
      dialogGetData (sess.edit ws) s.result = .ok data →
      ImportVideos.go fs sess s = .ok (data, { result := data }) ∧
      ∃ extra, data = s.result ++ extra) := by
  refine ⟨rfl, ?_, ?_, ?_⟩
  · intro fs s sess h
    simp [ImportVideos.go, h]
  · intro fs s sess ws hacc hinit
    by_cases hf : sess.file_names = []
    · simp [ImportVideos.go, hf]
    · have hlen : sess.file_names.length > 0 := List.length_pos.mpr hf
      rw [ImportVideos.go, if_pos hlen, hinit]
      show (if sess.accepted then _ else Except.ok (s.result, s)) = Except.ok (s.result, s)
      rw [hacc]
      rfl
  · intro fs s sess ws data hacc hne hinit hget
    refine ⟨?_, dialogGetData_extends _ _ _ hget⟩
    have hlen : sess.file_names.length > 0 := List.length_pos.mpr hne
    rw [ImportVideos.go, if_pos hlen, hinit]
    show (if sess.accepted then _ else Except.ok (s.result, s)) =
      Except.ok (data, { result := data })
    rw [hacc, if_pos rfl, hget]

/-- Witness for C9: a cancelled `go` on an instance that already holds one
result returns that result list, not the empty list; a zero-file `go` on a
fresh instance returns the empty list. -/
theorem c9_result_accumulates_witness :
    ImportVideos.go noFS cancelSession { result := [demoImportResult] } =
      .ok ([demoImportResult], { result := [demoImportResult] }) ∧
    ImportVideos.go noFS zeroSession ImportVideos.init =
      .ok ([], ImportVideos.init) :=
  ⟨c9_result_accumulates.2.2.1 noFS { result := [demoImportResult] } cancelSession
      _ rfl rfl,
   c9_result_accumulates.2.1 noFS ImportVideos.init zeroSession rfl⟩

/-! ## C7 -/

theorem str_empty_append (s : String) : "" ++ s = s := by
  cases s
  rfl

theorem str_append_empty (s : String) : s ++ "" = s := by
  cases s with
  | mk data =>
    show String.mk (data ++ []) = String.mk data
    rw [List.append_nil]

theorem str_append_assoc (a b c : String) : a ++ b ++ c = a ++ (b ++ c) := by
  cases a with
  | mk da =>
    cases b with
    | mk db =>
      cases c with
      | mk dc =>
        show String.mk (da ++ db ++ dc) = String.mk (da ++ (db ++ dc))
        rw [List.append_assoc]

theorem pref_slash (pref k x : String) :
    pref ++ ("/" ++ k ++ x) = pref ++ "/" ++ k ++ x := by
  rw [← str_append_assoc pref ("/" ++ k) x, ← str_append_assoc pref "/" k]

theorem h5Path_shift (ks : List String) :
    ∀ a : String, ks.foldl (fun acc k => acc ++ "/" ++ k) a = a ++ h5Path ks := by
  induction ks with
  | nil =>
    intro a
    rw [List.foldl_nil, h5Path, List.foldl_nil, str_append_empty]
  | cons k ks ih =>
    intro a
    rw [List.foldl_cons, ih]
    conv_rhs => rw [h5Path, List.foldl_cons, ih, str_empty_append, pref_slash]

theorem h5Path_cons (k : String) (ks : List String) :
    h5Path (k :: ks) = "/" ++ k ++ h5Path ks := by
  rw [h5Path, List.foldl_cons, h5Path_shift, str_empty_append]

theorem mem_keys_of_pyLookup {α : Type} :
    ∀ {d : List (String × α)} {k : String} {v : α},
      pyLookup d k = some v → k ∈ pyKeys d := by
  intro d
  induction d with
  | nil => intro k v h; cases h
  | cons e rest ih =>
    obtain ⟨k0, v0⟩ := e
    intro k v h
    rw [pyLookup] at h
    by_cases hk : k0 = k
    · simp [pyKeys, hk]
    · rw [if_neg hk] at h
      simp only [pyKeys, List.map_cons, List.mem_cons]
      exact Or.inr (ih h)

theorem lookup_dataset_mem (pref : String) :
    ∀ (entries : List (String × H5Node)) (k : String) (shape : List Nat),
      pyLookup entries k = some (H5Node.dataset shape) → shape.length = 4 →
      (pref ++ "/" ++ k) ∈ find_h5_datasets pref entries := by
  intro entries
  induction entries with
  | nil => intro k shape h _; cases h
  | cons e rest ih =>
    obtain ⟨k0, n0⟩ := e
    intro k shape h h4
    rw [pyLookup] at h
    by_cases hk : k0 = k
    · rw [if_pos hk] at h
      cases h
      subst hk
      rw [find_h5_datasets, findDatasetsEntry, if_pos h4]
      exact List.mem_append.mpr (Or.inl (by simp))
    · rw [if_neg hk] at h
      rw [find_h5_datasets]
      exact List.mem_append.mpr (Or.inr (ih k shape h h4))

theorem find_mono_group (pref : String) :
    ∀ (entries : List (String × H5Node)) (k : String)
      (sub : List (String × H5Node)) (q : String),
      pyLookup entries k = some (H5Node.group sub) →
      q ∈ find_h5_datasets (pref ++ "/" ++ k) sub →
      q ∈ find_h5_datasets pref entries := by
  intro entries
  induction entries with
  | nil => intro k sub q h _; cases h
  | cons e rest ih =>
    obtain ⟨k0, n0⟩ := e
    intro k sub q h hq
    rw [pyLookup] at h
    by_cases hk : k0 = k
    · rw [if_pos hk] at h
      cases h
      subst hk
      rw [find_h5_datasets, findDatasetsEntry]
      exact List.mem_append.mpr (Or.inl hq)
    · rw [if_neg hk] at h
      rw [find_h5_datasets]
      exact List.mem_append.mpr (Or.inr (ih k sub q h hq))

theorem find_backward :
    ∀ (ks : List String) (entries : List (String × H5Node)) (pref : String)
      (shape : List Nat),
      resolveNode (H5Node.group entries) ks = some (H5Node.dataset shape) →
      shape.length = 4 →
      (pref ++ h5Path ks) ∈ find_h5_datasets pref entries := by
  intro ks
  induction ks with
  | nil =>
    intro entries pref shape h _
    simp [resolveNode] at h
  | cons k ks ih =>
    intro entries pref shape h h4
    rw [resolveNode] at h
    cases hl : pyLookup entries k with
    | none => rw [hl] at h; simp at h
    | some sub =>
      rw [hl] at h
      have h2 : resolveNode sub ks = some (H5Node.dataset shape) := h
      cases sub with
      | dataset shape2 =>
        cases ks with
        | nil =>
          have hsh : shape2 = shape := by simpa [resolveNode] using h2
          subst hsh
          rw [h5Path_cons, show h5Path ([] : List String) = "" from rfl,
            str_append_empty, ← str_append_assoc]
          exact lookup_dataset_mem pref entries k shape2 hl h4
        | cons k2 ks2 => simp [resolveNode] at h2
      | group sub2 =>
        have hmem := ih sub2 (pref ++ "/" ++ k) shape h2 h4
        rw [h5Path_cons, pref_slash]
        exact find_mono_group pref entries k sub2 _ hl hmem

mutual

theorem findEntry_forward (pref key p : String) (n : H5Node)
    (hwf : h5NodeWF n = true) (hp : p ∈ findDatasetsEntry pref key n) :
    ∃ ks shape, resolveNode n ks = some (H5Node.dataset shape) ∧ shape.length = 4 ∧
      p = pref ++ "/" ++ key ++ h5Path ks := by
  cases n with
  | dataset shape =>
    rw [findDatasetsEntry] at hp
    by_cases h4 : shape.length = 4
    · rw [if_pos h4] at hp
      have hpe : p = pref ++ "/" ++ key := by simpa using hp
      refine ⟨[], shape, rfl, h4, ?_⟩
      rw [show h5Path ([] : List String) = "" from rfl, str_append_empty]
      exact hpe
    · rw [if_neg h4] at hp
      simp at hp
  | group entries =>
    rw [findDatasetsEntry] at hp
    rw [h5NodeWF, Bool.and_eq_true] at hwf
    obtain ⟨ks, shape, hres, h4, hpp, _⟩ :=
      find_forward (pref ++ "/" ++ key) p entries hwf.1 hwf.2 hp
    exact ⟨ks, shape, hres, h4, hpp⟩

theorem find_forward (pref p : String) (entries : List (String × H5Node))
    (hnd : nodupKeys (pyKeys entries) = true) (hwf : h5EntriesWF entries = true)
    (hp : p ∈ find_h5_datasets pref entries) :
    ∃ ks shape, resolveNode (H5Node.group entries) ks = some (H5Node.dataset shape) ∧
      shape.length = 4 ∧ p = pref ++ h5Path ks ∧ ks ≠ [] := by
  cases entries with
  | nil => rw [find_h5_datasets] at hp; simp at hp
  | cons e rest =>
    obtain ⟨k0, n0⟩ := e
    rw [find_h5_datasets] at hp
    rw [h5EntriesWF, Bool.and_eq_true] at hwf
    have hnd1 : (!((pyKeys rest).contains k0)) = true ∧ nodupKeys (pyKeys rest) = true := by
      rw [show pyKeys ((k0, n0) :: rest) = k0 :: pyKeys rest from rfl, nodupKeys,
        Bool.and_eq_true] at hnd
      exact hnd
    have hk0 : k0 ∉ pyKeys rest := by simpa [List.contains] using hnd1.1
    rcases List.mem_append.mp hp with hl | hr
    · obtain ⟨ks, shape, hres, h4, hpp⟩ := findEntry_forward pref k0 p n0 hwf.1 hl
      refine ⟨k0 :: ks, shape, ?_, h4, ?_, by simp⟩
      · show (match pyLookup ((k0, n0) :: rest) k0 with
            | none => none
            | some sub => resolveNode sub ks) = some (H5Node.dataset shape)
        rw [pyLookup, if_pos rfl]
        exact hres
      · rw [h5Path_cons, pref_slash]
        exact hpp
    · obtain ⟨ks, shape, hres, h4, hpp, hne⟩ := find_forward pref p rest hnd1.2 hwf.2 hr
      cases ks with
      | nil => exact absurd rfl hne
      | cons k1 ks2 =>
        have hres1 : (match pyLookup rest k1 with
            | none => none
            | some sub => resolveNode sub ks2) = some (H5Node.dataset shape) := hres
        cases hlk : pyLookup rest k1 with
        | none => rw [hlk] at hres1; simp at hres1
        | some sub =>
          rw [hlk] at hres1
          have hres2 : resolveNode sub ks2 = some (H5Node.dataset shape) := hres1
          have hkne : ¬k0 = k1 := by
            intro hc
            subst hc
            exact hk0 (mem_keys_of_pyLookup hlk)
          refine ⟨k1 :: ks2, shape, ?_, h4, hpp, by simp⟩
          show (match pyLookup ((k0, n0) :: rest) k1 with
              | none => none
              | some sub2 => resolveNode sub2 ks2) = some (H5Node.dataset shape)
          rw [pyLookup, if_neg hkne, hlk]
          exact hres2

end

/-- C7: for every file path, the hdf5 option provider returns exactly the paths
of the 4-dimensional datasets reachable by recursively scanning the file's
group hierarchy — a string is among the options precisely when it renders a key
path that resolves to a dataset with a 4-dimensional shape — and a file that
fails to open yields the empty option list instead of an error. -/
theorem c7_h5_dataset_options (fs : FileSys) (path : String) :
    (fs path = none → get_h5_dataset_options fs path = []) ∧
    (∀ root, fs path = some root → h5RootWF root = true →
      ∀ p, p ∈ get_h5_dataset_options fs path ↔
        ∃ ks shape, ks ≠ [] ∧
          resolveNode (H5Node.group root) ks = some (H5Node.dataset shape) ∧
          shape.length = 4 ∧ p = h5Path ks) := by
  constructor
  · intro h
    rw [get_h5_dataset_options, h]
  · intro root hroot hwf p
    rw [get_h5_dataset_options, hroot]
    show p ∈ find_h5_datasets "" root ↔ _
    rw [h5RootWF, Bool.and_eq_true] at hwf
    constructor
    · intro hp
      obtain ⟨ks, shape, hres, h4, hpp, hne⟩ := find_forward "" p root hwf.1 hwf.2 hp
      rw [str_empty_append] at hpp
      exact ⟨ks, shape, hne, hres, h4, hpp⟩
    · rintro ⟨ks, shape, _, hres, h4, hpp⟩
      have hmem := find_backward ks root "" shape hres h4
      rw [str_empty_append] at hmem
      rw [hpp]
      exact hmem

/-- Witness for C7: on a concrete file system, an unknown path yields no
options, and on a concrete hierarchy the nested 4-dimensional dataset's path is
an option exactly as the resolution characterization states. -/
theorem c7_h5_dataset_options_witness :
    get_h5_dataset_options demoFS "other.h5" = [] ∧
    (("/video/frames" ∈ get_h5_dataset_options demoFS "demo.h5") ↔
      ∃ ks shape, ks ≠ [] ∧
        resolveNode (H5Node.group demoRoot) ks = some (H5Node.dataset shape) ∧
        shape.length = 4 ∧ "/video/frames" = h5Path ks) :=
  ⟨(c7_h5_dataset_options demoFS "other.h5").1 rfl,
   (c7_h5_dataset_options demoFS "demo.h5").2 demoRoot rfl rfl "/video/frames"⟩
